import Mathlib

/-!
Verification development for the credential-aggregation core of the
blockchain-education portal.

The embedded code is the data-flow core of `src/pages/StudentDashboard.jsx`
(the `fetchUserData` effect: profile resolution followed by concurrent
credential lookups filtered for missing records) and the submission path of
`src/pages/CredentialUpload.jsx` (`handleSubmit` together with the
browser-level `required` markup of its form).

Asynchronous lookups are embedded by their settled values: a lookup either
resolves with a document snapshot (present or absent) or rejects with a store
fault.  `Promise.all` is embedded as a fail-fast combinator over settled
results, and the React state setters as explicit state passing on a dashboard
state record.  Emitted toasts and issued lookups are tracked as effect lists
so that claims about notifications and about which fetches were issued can be
stated.
-/

/-- The data fields of a stored credential document (`credDoc.data()`):
`type`, `institution`, `createdAt` and `cid` as rendered by the dashboard. -/
structure CredData where
  type : String
  institution : String
  createdAt : Nat
  cid : String
deriving DecidableEq

/-- A resolved credential record as built by the dashboard:
`{ id: credDoc.id, ...credDoc.data() }`, i.e. the document id paired with the
document data. -/
structure Credential where
  id : String
  data : CredData
deriving DecidableEq

/-- Settled outcome of a single `getDoc` call on the credential store:
the document exists (`found`), the document is absent (`exists()` is false),
or the promise rejects with a store fault. -/
inductive DocResult where
  | found (d : CredData)
  | absent
  | fault
deriving DecidableEq

/-- Whether a single lookup outcome is a store fault (a rejected promise). -/
def DocResult.isFault : DocResult → Bool
  | .fault => true
  | _ => false

/-- One per-id lookup, from StudentDashboard.jsx lines 34-35:
`const credDoc = await getDoc(doc(db, 'credentials', credId));`
`return credDoc.exists() ? { id: credDoc.id, ...credDoc.data() } : null;`
A found document yields the record (under the id it was looked up with),
an absent document yields `null` (here `none`), and a store fault rejects. -/
def lookupCredential (store : String → DocResult) (credId : String) :
    Except Unit (Option Credential) :=
  match store credId with
  | .found d => .ok (some ⟨credId, d⟩)
  | .absent => .ok none
  | .fault => .error ()

/-- `Promise.all` over settled results: resolves with the list of values when
every promise resolves, and rejects as soon as any promise rejects
(fail-fast; the rejection reason is collapsed to `Unit`). -/
def promiseAll {α : Type} : List (Except Unit α) → Except Unit (List α)
  | [] => .ok []
  | .error e :: _ => .error e
  | .ok a :: rs =>
    match promiseAll rs with
    | .error e => .error e
    | .ok as => .ok (a :: as)

/-- The credential aggregation of StudentDashboard.jsx lines 33-39:
map each id to a lookup promise, `await Promise.all`, then
`filter(cred => cred !== null)`.  (The spec calls this `resolveCredentials`.) -/
def resolveCredentials (store : String → DocResult) (ids : List String) :
    Except Unit (List Credential) :=
  match promiseAll (ids.map (lookupCredential store)) with
  | .error e => .error e
  | .ok fetched => .ok (fetched.filterMap (fun c => c))

/-- The record produced for an id whose document is found, and `none` for an
absent (or faulting) id; used to characterise the aggregate output. -/
def foundCredential (store : String → DocResult) (i : String) : Option Credential :=
  match store i with
  | .found d => some ⟨i, d⟩
  | _ => none

/-- The authenticated user supplied by the auth context; the dashboard only
reads `user.uid`. -/
structure AuthUser where
  uid : String
deriving DecidableEq

/-- A user profile record as read by the dashboard: an optional
`displayName` and the `credentials` field, an ordered list of credential id
strings (the spec calls these `credentialIds`). -/
structure UserProfile where
  displayName : Option String
  credentials : List String
deriving DecidableEq

/-- Settled outcome of a profile fetch against the profile store: the
profile exists, the profile is absent, or the store faults. -/
inductive ProfileResult where
  | found (p : UserProfile)
  | absent
  | fault
deriving DecidableEq

/-- Modelled from the spec: `getUserProfile` lives in
`src/services/userService`, which is not among the sources; only its caller
is.  Per spec section 4.1 the resolver distinguishes a missing profile
(permanent; the caller renders the empty/guest state) from a transient store
fault (recoverable).  Consistent with the caller's optional chaining
(`profile?.credentials?.length`), a missing profile resolves with no profile
value (`null`), while a transient store fault rejects and is caught by the
caller's catch block. -/
def getUserProfile (profileStore : String → ProfileResult) (uid : String) :
    Except Unit (Option UserProfile) :=
  match profileStore uid with
  | .found p => .ok (some p)
  | .absent => .ok none
  | .fault => .error ()

/-- The dashboard component state touched by `fetchUserData`: the
`userProfile` state (initially `null`) and the `credentials` state
(initially `[]`). -/
structure DashboardState where
  userProfile : Option UserProfile
  credentials : List Credential
deriving DecidableEq

/-- The component's initial state: `useState(null)` for the profile and
`useState([])` for the credentials. -/
def initialDashboardState : DashboardState := ⟨none, []⟩

/-- The observable outcome of one `fetchUserData` run: the resulting
component state, the toast messages emitted, the profile ids fetched from the
profile store, and the credential ids for which lookups were issued. -/
structure FetchOutcome where
  state : DashboardState
  toasts : List String
  profileFetches : List String
  lookupsIssued : List String
deriving DecidableEq

/-- The `fetchUserData` effect of StudentDashboard.jsx lines 23-46, embedded
over settled lookup outcomes.  If no user is present nothing runs.  Otherwise
the profile is fetched and stored with `setUserProfile`; when it carries a
non-empty credential list the per-id lookups are all issued (`.map` creates
every promise before `Promise.all` is awaited, so the issued list is the full
id list even when the aggregate rejects) and the filtered results are stored
with `setCredentials`.  Any rejection lands in the single catch block, which
emits one `toast.error('Failed to load credentials')` and performs no state
write. -/
def fetchUserData (profileStore : String → ProfileResult)
    (credStore : String → DocResult) (user : Option AuthUser)
    (s : DashboardState) : FetchOutcome :=
  match user with
  | none => ⟨s, [], [], []⟩
  | some u =>
    match getUserProfile profileStore u.uid with
    | .error _ => ⟨s, ["Failed to load credentials"], [u.uid], []⟩
    | .ok profile =>
      match profile with
      | none => ⟨⟨none, s.credentials⟩, [], [u.uid], []⟩
      | some p =>
        if p.credentials.length > 0 then
          match resolveCredentials credStore p.credentials with
          | .error _ =>
            ⟨⟨some p, s.credentials⟩, ["Failed to load credentials"], [u.uid],
              p.credentials⟩
          | .ok creds => ⟨⟨some p, creds⟩, [], [u.uid], p.credentials⟩
        else ⟨⟨some p, s.credentials⟩, [], [u.uid], []⟩

/-- The draft fields of the credential-upload form in CredentialUpload.jsx:
the type select (empty string when nothing is chosen), the student-name text
input, and the optionally attached document.  In the markup the select and
the text input carry the `required` attribute; the file input does not. -/
structure UploadForm where
  credType : String
  studentName : String
  document : Option String
deriving DecidableEq

/-- The upload component state: the current `step` (1 is the form, 2 the
success screen), the `uploading` flag, and the file `preview`. -/
structure UploadState where
  step : Nat
  uploading : Bool
  preview : Option String
deriving DecidableEq

/-- The upload component's initial state: `useState(1)`, `useState(false)`,
`useState(null)`. -/
def initialUploadState : UploadState := ⟨1, false, none⟩

/-- `handleSubmit` of CredentialUpload.jsx lines 26-33, by its settled
effect: it sets `uploading` true, awaits a simulated two-second delay, sets
`uploading` back to false and moves to step 2 — unconditionally, without
reading any form field. -/
def handleSubmit (s : UploadState) : UploadState :=
  ⟨2, false, s.preview⟩

/-- The form submission path: the browser enforces the `required` attributes
present in the markup (the type select and the student-name input; the file
input carries none), blocking submission (`none`) when one of those two is
empty; otherwise `handleSubmit` runs. -/
def submitForm (form : UploadForm) (s : UploadState) : Option UploadState :=
  if form.credType = "" ∨ form.studentName = "" then none
  else some (handleSubmit s)

/-- Concrete credential data used in concrete runs (Scenario A's degree
record for c1). -/
def dataA : CredData := ⟨"degree", "Example Institute", 2020, "QmDocA"⟩

/-- A credential store holding a record for c1 only; every other id,
c2 included, is absent (Scenario A). -/
def storeAbsentC2 : String → DocResult := fun i =>
  if i = "c1" then .found dataA else .absent

/-- A credential store holding a record for c1 whose lookup of c2 rejects
with a store fault. -/
def storeFaultC2 : String → DocResult := fun i =>
  if i = "c1" then .found dataA else if i = "c2" then .fault else .absent

/-- A credential store with no documents at all. -/
def credStoreEmpty : String → DocResult := fun _ => .absent

/-- A credential store agreeing with storeAbsentC2 on c1 but differing on
every other id. -/
def credStoreAlt : String → DocResult := fun i =>
  if i = "c1" then .found dataA else .fault

/-- Profile of user u1, referencing credentials c1 and c2. -/
def profileU1 : UserProfile := ⟨some "Alice", ["c1", "c2"]⟩

/-- Profile with an empty credential list (Scenario B). -/
def profileEmptyCreds : UserProfile := ⟨some "Bob", []⟩

/-- Profile store where u1 resolves to profileU1 and everyone else is
absent. -/
def psFound : String → ProfileResult := fun uid =>
  if uid = "u1" then .found profileU1 else .absent

/-- Profile store where u2 resolves to the empty-credential profile. -/
def psEmptyCreds : String → ProfileResult := fun uid =>
  if uid = "u2" then .found profileEmptyCreds else .absent

/-- Profile store with every profile absent. -/
def psAbsent : String → ProfileResult := fun _ => .absent

/-- Profile store that always faults (store unreachable). -/
def psFault : String → ProfileResult := fun _ => .fault

theorem promiseAll_map_lookup_fault (store : String → DocResult) :
    ∀ ids : List String, ids.any (fun i => (store i).isFault) = true →
      promiseAll (ids.map (lookupCredential store)) = .error ()
  | [], h => by simp at h
  | i :: ids, h => by
    cases hc : store i with
    | found d =>
      have hany : ids.any (fun i => (store i).isFault) = true := by
        simpa [List.any_cons, hc, DocResult.isFault] using h
      have ih := promiseAll_map_lookup_fault store ids hany
      simp [List.map_cons, lookupCredential, hc, promiseAll, ih]
    | absent =>
      have hany : ids.any (fun i => (store i).isFault) = true := by
        simpa [List.any_cons, hc, DocResult.isFault] using h
      have ih := promiseAll_map_lookup_fault store ids hany
      simp [List.map_cons, lookupCredential, hc, promiseAll, ih]
    | fault =>
      simp [List.map_cons, lookupCredential, hc, promiseAll]

theorem promiseAll_map_lookup_ok (store : String → DocResult) :
    ∀ ids : List String, ids.any (fun i => (store i).isFault) = false →
      promiseAll (ids.map (lookupCredential store)) =
        .ok (ids.map (foundCredential store))
  | [], _ => by simp [promiseAll]
  | i :: ids, h => by
    have hhead : (store i).isFault = false := by
      by_contra hf
      simp only [List.any_cons, Bool.or_eq_false_iff] at h
      exact hf h.1
    have hany : ids.any (fun i => (store i).isFault) = false := by
      simp only [List.any_cons, Bool.or_eq_false_iff] at h
      exact h.2
    have ih := promiseAll_map_lookup_ok store ids hany
    cases hc : store i with
    | found d =>
      simp [List.map_cons, lookupCredential, hc, promiseAll, ih, foundCredential]
    | absent =>
      simp [List.map_cons, lookupCredential, hc, promiseAll, ih, foundCredential]
    | fault =>
      rw [hc] at hhead
      simp [DocResult.isFault] at hhead

theorem resolveCredentials_spec (store : String → DocResult) (ids : List String) :
    resolveCredentials store ids =
      if ids.any (fun i => (store i).isFault) then .error ()
      else .ok (ids.filterMap (foundCredential store)) := by
  cases hany : ids.any (fun i => (store i).isFault) with
  | true =>
    rw [resolveCredentials, promiseAll_map_lookup_fault store ids hany]
    simp
  | false =>
    rw [resolveCredentials, promiseAll_map_lookup_ok store ids hany]
    simp only [Bool.false_eq_true, if_false]
    rw [List.filterMap_map]
    rfl

theorem foundCredential_id (store : String → DocResult) (i : String)
    (c : Credential) (h : foundCredential store i = some c) : c.id = i := by
  cases hc : store i with
  | found d =>
    simp only [foundCredential, hc, Option.some.injEq] at h
    rw [← h]
  | absent => simp [foundCredential, hc] at h
  | fault => simp [foundCredential, hc] at h

theorem list_any_congr {α : Type} (f g : α → Bool) :
    ∀ l : List α, (∀ a ∈ l, f a = g a) → l.any f = l.any g
  | [], _ => rfl
  | a :: l, h => by
    simp only [List.any_cons]
    rw [h a (List.mem_cons_self a l),
      list_any_congr f g l (fun b hb => h b (List.mem_cons_of_mem a hb))]

theorem list_filterMap_congr {α β : Type} (f g : α → Option β) :
    ∀ l : List α, (∀ a ∈ l, f a = g a) → l.filterMap f = l.filterMap g
  | [], _ => rfl
  | a :: l, h => by
    simp only [List.filterMap_cons]
    rw [h a (List.mem_cons_self a l),
      list_filterMap_congr f g l (fun b hb => h b (List.mem_cons_of_mem a hb))]

/-- C1 counterexample: with a store holding c1 and faulting on the lookup of
c2, the aggregation over the id list (c1, c2) rejects as a whole: it returns
an error and not the one-record list for c1, so a store fault for one id is
not silently dropped and does abort the return of the records resolved for
the other ids. -/
theorem storeFault_aborts_aggregation :
    resolveCredentials storeFaultC2 ["c1", "c2"] = .error () ∧
    resolveCredentials storeFaultC2 ["c1", "c2"] ≠ .ok [⟨"c1", dataA⟩] := by
  have h1 : resolveCredentials storeFaultC2 ["c1", "c2"] = .error () := rfl
  exact ⟨h1, by simp [h1]⟩

/-- C1 (amended): the aggregator waits for the lookups only in the no-fault
case; ids whose documents are absent are silently dropped and the rest
returned, but as soon as any id's lookup rejects with a store fault the whole
Promise.all aggregation rejects (fail-fast), returning an error and none of
the records resolved for the other ids. -/
theorem aggregate_fault_fail_fast (store : String → DocResult)
    (ids : List String) :
    (ids.any (fun i => (store i).isFault) = true →
      resolveCredentials store ids = .error ()) ∧
    (ids.any (fun i => (store i).isFault) = false →
      resolveCredentials store ids =
        .ok (ids.filterMap (foundCredential store))) := by
  constructor <;> intro h <;> rw [resolveCredentials_spec, h] <;> simp

theorem aggregate_fault_fail_fast_witness :
    resolveCredentials storeFaultC2 ["c2"] = .error () ∧
    resolveCredentials storeAbsentC2 ["c9"] =
      .ok (["c9"].filterMap (foundCredential storeAbsentC2)) :=
  ⟨(aggregate_fault_fail_fast storeFaultC2 ["c2"]).1 rfl,
   (aggregate_fault_fail_fast storeAbsentC2 ["c9"]).2 rfl⟩

/-- C5: for a credential id list (c1, c2) where the store holds a record for
c1 and c2 is absent (no fault), the aggregation returns exactly the
one-element list holding the c1 record under id c1: the missing id is
excluded and the resolvable one included. -/
theorem scenarioA_partial_resolution (store : String → DocResult)
    (d : CredData) (h1 : store "c1" = .found d) (h2 : store "c2" = .absent) :
    resolveCredentials store ["c1", "c2"] = .ok [⟨"c1", d⟩] := by
  rw [resolveCredentials_spec]
  simp [h1, h2, DocResult.isFault, foundCredential]

theorem scenarioA_witness :
    resolveCredentials storeAbsentC2 ["c1", "c2"] = .ok [⟨"c1", dataA⟩] :=
  scenarioA_partial_resolution storeAbsentC2 dataA rfl rfl

/-- C6: when no lookup in the id list faults, the aggregation succeeds with
exactly the records of the input ids whose documents exist in the store, in
the relative order of the input list, each record carrying as id the input id
it was looked up under; consequently every returned id is one of the input
ids. -/
theorem resolveCredentials_no_fault_characterization
    (store : String → DocResult) (ids : List String)
    (h : ids.any (fun i => (store i).isFault) = false) :
    resolveCredentials store ids =
      .ok (ids.filterMap (foundCredential store)) ∧
    ∀ c ∈ ids.filterMap (foundCredential store), c.id ∈ ids := by
  constructor
  · rw [resolveCredentials_spec, h]
    simp
  · intro c hc
    rcases List.mem_filterMap.mp hc with ⟨i, hi, hfi⟩
    rw [foundCredential_id store i c hfi]
    exact hi

theorem resolveCredentials_no_fault_witness :
    resolveCredentials storeAbsentC2 ["c1", "c2"] =
      .ok (["c1", "c2"].filterMap (foundCredential storeAbsentC2)) ∧
    ∀ c ∈ ["c1", "c2"].filterMap (foundCredential storeAbsentC2),
      c.id ∈ ["c1", "c2"] :=
  resolveCredentials_no_fault_characterization storeAbsentC2 ["c1", "c2"] rfl

/-- C8: the aggregation is deterministic with respect to the store: two runs
over the same id list against stores that agree on every id in the list (in
particular, two runs against one unchanged store) produce identical results,
hence resolve the same set of credential ids. -/
theorem resolveCredentials_deterministic (s1 s2 : String → DocResult)
    (ids : List String) (h : ∀ i ∈ ids, s1 i = s2 i) :
    resolveCredentials s1 ids = resolveCredentials s2 ids := by
  rw [resolveCredentials_spec, resolveCredentials_spec,
    list_any_congr (fun i => (s1 i).isFault) (fun i => (s2 i).isFault) ids
      (fun i hi => by simp only []; rw [h i hi]),
    list_filterMap_congr (foundCredential s1) (foundCredential s2) ids
      (fun i hi => by unfold foundCredential; rw [h i hi])]

theorem resolveCredentials_deterministic_witness :
    resolveCredentials storeAbsentC2 ["c1"] =
      resolveCredentials credStoreAlt ["c1"] :=
  resolveCredentials_deterministic storeAbsentC2 credStoreAlt ["c1"]
    (by
      intro i hi
      rw [List.mem_singleton] at hi
      subst hi
      rfl)

/-- C2: profile resolution has two distinguishable failure outcomes.  When
the profile is absent (permanent), the run completes without any
notification, storing no profile so the dashboard renders the guest/default
state (`displayName` falls back to the static greeting) without crashing.
When the profile store faults (transient), the run emits exactly one
recoverable error notification and performs no state write.  The two paths
produce different observable outcomes, so the failure kinds are not
conflated. -/
theorem profile_failure_modes_distinguished (ps : String → ProfileResult)
    (cs : String → DocResult) (u : AuthUser) (s : DashboardState) :
    (ps u.uid = .absent →
      fetchUserData ps cs (some u) s =
        ⟨⟨none, s.credentials⟩, [], [u.uid], []⟩) ∧
    (ps u.uid = .fault →
      fetchUserData ps cs (some u) s =
        ⟨s, ["Failed to load credentials"], [u.uid], []⟩) := by
  constructor <;> intro h <;> simp [fetchUserData, getUserProfile, h]

theorem profile_failure_modes_witness :
    fetchUserData psAbsent credStoreEmpty (some ⟨"missing"⟩)
        initialDashboardState =
      ⟨⟨none, []⟩, [], ["missing"], []⟩ ∧
    fetchUserData psFault credStoreEmpty (some ⟨"u9"⟩)
        initialDashboardState =
      ⟨⟨none, []⟩, ["Failed to load credentials"], ["u9"], []⟩ :=
  ⟨(profile_failure_modes_distinguished psAbsent credStoreEmpty ⟨"missing"⟩
      initialDashboardState).1 rfl,
   (profile_failure_modes_distinguished psFault credStoreEmpty ⟨"u9"⟩
      initialDashboardState).2 rfl⟩

/-- C3 counterexample: a submission whose attached document is missing (the
third required field of the claim) is not blocked and produces no
ValidationError: the browser-level checks pass (the file input carries no
`required` attribute), the handler runs, and the component reaches the
success step 2, acknowledging the submission. -/
theorem submit_missing_document_succeeds :
    submitForm ⟨"degree", "Alice", none⟩ initialUploadState =
      some ⟨2, false, none⟩ ∧
    initialUploadState.step = 1 :=
  ⟨rfl, rfl⟩

/-- C3 (amended): the submit handler itself performs no validation and has no
ValidationError outcome.  Submission is blocked only by the browser-enforced
`required` markup, which covers the type select and the student-name input
but not the attached document; any submission passing those two checks
unconditionally transitions to the success step, document or not. -/
theorem submitForm_blocks_only_required_markup (form : UploadForm)
    (s : UploadState) :
    ((form.credType = "" ∨ form.studentName = "") →
      submitForm form s = none) ∧
    (form.credType ≠ "" → form.studentName ≠ "" →
      submitForm form s = some ⟨2, false, s.preview⟩) := by
  constructor
  · intro h
    simp [submitForm, h]
  · intro h1 h2
    simp [submitForm, handleSubmit, h1, h2]

theorem submitForm_blocks_only_required_markup_witness :
    submitForm ⟨"", "Alice", some "doc.pdf"⟩ initialUploadState = none ∧
    submitForm ⟨"diploma", "Bob", none⟩ ⟨1, true, some "p"⟩ =
      some ⟨2, false, some "p"⟩ :=
  ⟨(submitForm_blocks_only_required_markup ⟨"", "Alice", some "doc.pdf"⟩
      initialUploadState).1 (Or.inl rfl),
   (submitForm_blocks_only_required_markup ⟨"diploma", "Bob", none⟩
      ⟨1, true, some "p"⟩).2 (by decide) (by decide)⟩

/-- C4 counterexample: a run starting from the initial state (profile null)
that resolves a fresh profile and then fails transiently during the
credential lookups emits the notification, but the profile state field does
not keep the value it held before the failing run: it has already been
overwritten with the newly fetched profile. -/
theorem transient_failure_overwrites_profile :
    (fetchUserData psFound storeFaultC2 (some ⟨"u1"⟩)
        initialDashboardState).toasts = ["Failed to load credentials"] ∧
    (fetchUserData psFound storeFaultC2 (some ⟨"u1"⟩)
        initialDashboardState).state.userProfile = some profileU1 ∧
    initialDashboardState.userProfile = none ∧
    some profileU1 ≠ (none : Option UserProfile) :=
  ⟨rfl, rfl, rfl, by simp⟩

/-- C4 (amended): on a transient failure exactly one notification is emitted
and nothing is written to state after the failure point, so the credentials
state always keeps its prior value; the profile state keeps its prior value
when profile resolution itself faults, but when the fault occurs during the
credential lookups the profile state has already been set to the newly
fetched profile by the failing run. -/
theorem transient_failure_state_preservation (ps : String → ProfileResult)
    (cs : String → DocResult) (u : AuthUser) (s : DashboardState)
    (p : UserProfile) :
    (ps u.uid = .fault →
      fetchUserData ps cs (some u) s =
        ⟨s, ["Failed to load credentials"], [u.uid], []⟩) ∧
    (ps u.uid = .found p → p.credentials.length > 0 →
      p.credentials.any (fun i => (cs i).isFault) = true →
      fetchUserData ps cs (some u) s =
        ⟨⟨some p, s.credentials⟩, ["Failed to load credentials"], [u.uid],
          p.credentials⟩) := by
  constructor
  · intro h
    simp [fetchUserData, getUserProfile, h]
  · intro h hlen hf
    have hres := (aggregate_fault_fail_fast cs p.credentials).1 hf
    simp [fetchUserData, getUserProfile, h, hlen, hres]

theorem transient_failure_state_preservation_witness :
    fetchUserData psFault credStoreEmpty (some ⟨"u2"⟩)
        ⟨some profileEmptyCreds, []⟩ =
      ⟨⟨some profileEmptyCreds, []⟩, ["Failed to load credentials"], ["u2"],
        []⟩ ∧
    fetchUserData psFound storeFaultC2 (some ⟨"u1"⟩) initialDashboardState =
      ⟨⟨some profileU1, []⟩, ["Failed to load credentials"], ["u1"],
        ["c1", "c2"]⟩ :=
  ⟨(transient_failure_state_preservation psFault credStoreEmpty ⟨"u2"⟩
      ⟨some profileEmptyCreds, []⟩ profileEmptyCreds).1 rfl,
   (transient_failure_state_preservation psFound storeFaultC2 ⟨"u1"⟩
      initialDashboardState profileU1).2 rfl (by decide) rfl⟩

/-- C7: when the resolved profile carries an empty credential id list, the
run finishes without error and without issuing a single credential lookup,
the credentials state keeps the (initially empty) value it already had, and
the aggregation itself maps the empty id list to the empty sequence without
error. -/
theorem empty_credentialIds_empty_result (ps : String → ProfileResult)
    (cs : String → DocResult) (u : AuthUser) (p : UserProfile)
    (s : DashboardState) (hp : ps u.uid = .found p)
    (hempty : p.credentials = []) :
    fetchUserData ps cs (some u) s =
      ⟨⟨some p, s.credentials⟩, [], [u.uid], []⟩ ∧
    resolveCredentials cs [] = .ok [] := by
  constructor
  · simp [fetchUserData, getUserProfile, hp, hempty]
  · rfl

theorem empty_credentialIds_witness :
    fetchUserData psEmptyCreds credStoreEmpty (some ⟨"u2"⟩)
        initialDashboardState =
      ⟨⟨some profileEmptyCreds, []⟩, [], ["u2"], []⟩ ∧
    resolveCredentials credStoreEmpty [] = .ok [] :=
  empty_credentialIds_empty_result psEmptyCreds credStoreEmpty ⟨"u2"⟩
    profileEmptyCreds initialDashboardState rfl rfl

/-- C9: with no authenticated user, a run of the fetch effect fetches no
profile, issues no credential lookup, emits no notification and leaves the
state untouched; started from the component's initial state it therefore
ends in the signed-out default state of a null profile and an empty
credential list. -/
theorem unauthenticated_noop (ps : String → ProfileResult)
    (cs : String → DocResult) (s : DashboardState) :
    fetchUserData ps cs none s = ⟨s, [], [], []⟩ ∧
    fetchUserData ps cs none initialDashboardState =
      ⟨⟨none, []⟩, [], [], []⟩ :=
  ⟨rfl, rfl⟩
